import Mathlib

/-!
Verification of the TaskFlow backend (src/backend/src/app.py): a FastAPI
task-management CRUD service over a record store.

The embedding is shallow:
* JSON body fields are three-valued (absent / null / value), matching the
  pydantic distinction that `model_dump(exclude_unset=True)` relies on.
* The pydantic request-model validation (`TaskCreate`, `TaskUpdate` with
  `Field(min_length/max_length)` and enum coercion) is embedded as explicit
  parse functions that run BEFORE the route handler bodies, exactly as
  FastAPI validates the request body before invoking a handler; a parse
  failure is the framework's 422 response.
* The record store (`db`) is a list of task rows; timestamps
  (`datetime.utcnow()`) are naturals supplied as an oracle argument `now`;
  uuid4 generation is an oracle argument `newId`.
* `TaskStatus`, `TaskPriority` and the column nullability of `TaskModel`
  live in `models.py`, which is not part of the provided sources; they are
  modelled from the spec (section 3) and the member lists documented in the
  `get_tasks` docstring of app.py.
-/

namespace TaskFlow

/-- A JSON body field: absent from the object, present as `null`, or present
with a value. pydantic's `exclude_unset` distinguishes `absent` from `null`. -/
inductive JVal (α : Type) where
  | absent : JVal α
  | null : JVal α
  | val : α → JVal α
deriving DecidableEq, Repr

/-- Modelled from the spec: `TaskStatus` enumeration from models.py (absent
from the sources); members {todo, in_progress, done} per spec section 3 and
the `get_tasks` docstring in app.py. -/
inductive TaskStatus where
  | todo : TaskStatus
  | in_progress : TaskStatus
  | done : TaskStatus
deriving DecidableEq, Repr

/-- Modelled from the spec: `TaskPriority` enumeration from models.py (absent
from the sources); members {low, medium, high} per spec section 3 and the
`get_tasks` docstring in app.py. -/
inductive TaskPriority where
  | low : TaskPriority
  | medium : TaskPriority
  | high : TaskPriority
deriving DecidableEq, Repr

/-- Enum coercion by value, as pydantic does for a `TaskStatus` body field. -/
def parseStatus : String → Option TaskStatus
  | "todo" => some .todo
  | "in_progress" => some .in_progress
  | "done" => some .done
  | _ => none

/-- Enum coercion by value, as pydantic does for a `TaskPriority` body field. -/
def parsePriority : String → Option TaskPriority
  | "low" => some .low
  | "medium" => some .medium
  | "high" => some .high
  | _ => none

/-- Python `len` on a string: the number of code points. -/
def pyLen (s : String) : Nat := s.data.length

/-- Python `str.strip()`: remove leading and trailing whitespace. -/
def pyStrip (s : String) : String :=
  ⟨((s.data.dropWhile Char.isWhitespace).reverse.dropWhile Char.isWhitespace).reverse⟩

/-- A persisted task row (`TaskModel` columns; the column set mirrors the
`Task` response model of app.py). `title`, `status`, `priority`,
`created_at`, `updated_at` are non-nullable; modelled from the spec for
models.py, which is absent from the sources. -/
structure Task where
  id : String
  title : String
  description : Option String
  status : TaskStatus
  priority : TaskPriority
  assignee : Option String
  due_date : Option Nat
  created_at : Nat
  updated_at : Nat
deriving DecidableEq, Repr

/-- The record store: the set of persisted rows, in insertion order. -/
abbrev Store := List Task

/-- Raw JSON body of a POST /tasks request, before pydantic validation.
Field order: title, description, status, priority, assignee, due_date.
`due_date` is modelled as an already-typed timestamp. -/
structure TaskCreateInput where
  title : JVal String
  description : JVal String
  status : JVal String
  priority : JVal String
  assignee : JVal String
  due_date : JVal Nat
deriving DecidableEq, Repr

/-- A validated `TaskCreate` pydantic model (app.py lines 40-47): title
required with 1 ≤ len ≤ 200, description ≤ 1000, status defaulting to todo,
priority defaulting to medium, assignee ≤ 100. -/
structure TaskCreate where
  title : String
  description : Option String
  status : TaskStatus
  priority : TaskPriority
  assignee : Option String
  due_date : Option Nat
deriving DecidableEq, Repr

/-- pydantic validation of an optional string field with a `max_length`
bound (`Field(None, max_length=bound)`): absent and null both yield `None`. -/
def parseOptStr (bound : Nat) : JVal String → Option (Option String)
  | .absent => some none
  | .null => some none
  | .val s => if pyLen s ≤ bound then some (some s) else none

/-- pydantic validation of the required `title: str` create field
(`Field(..., min_length=1, max_length=200)`): absence and null are both
rejected (the field is required and not `Optional`). -/
def parseCreateTitle : JVal String → Option String
  | .val t => if 1 ≤ pyLen t ∧ pyLen t ≤ 200 then some t else none
  | _ => none

/-- pydantic validation of a non-optional enum create field with a declared
default: absence yields the default, null is rejected, a value must be an
enumeration member. -/
def parseCreateEnum (p : String → Option α) (dflt : α) : JVal String → Option α
  | .absent => some dflt
  | .null => none
  | .val s => p s

/-- The stored value of an `Optional` field: absent and null both become
`None`. -/
def jvalOpt : JVal α → Option α
  | .val v => some v
  | _ => none

/-- pydantic validation of `TaskCreate` (app.py lines 40-47). `title` is a
required `str` (null is rejected) with `min_length=1, max_length=200`;
`status`/`priority` are non-optional enums with declared defaults, so null
is rejected and absence yields the default; any field failure rejects the
whole body. -/
def parseTaskCreate (raw : TaskCreateInput) : Option TaskCreate :=
  match parseCreateTitle raw.title, parseOptStr 1000 raw.description,
      parseCreateEnum parseStatus .todo raw.status,
      parseCreateEnum parsePriority .medium raw.priority,
      parseOptStr 100 raw.assignee with
  | some t, some d, some st, some pr, some a =>
    some ⟨t, d, st, pr, a, jvalOpt raw.due_date⟩
  | _, _, _, _, _ => none

/-- Raw JSON body of a PUT /tasks/{id} request, before pydantic validation. -/
structure TaskUpdateInput where
  title : JVal String
  description : JVal String
  status : JVal String
  priority : JVal String
  assignee : JVal String
  due_date : JVal Nat
deriving DecidableEq, Repr

/-- A validated `TaskUpdate` pydantic model (app.py lines 50-57): every
field optional, so each is unset (`absent`), explicitly null, or a value;
`model_dump(exclude_unset=True)` later drops exactly the `absent` ones. -/
structure TaskUpdate where
  title : JVal String
  description : JVal String
  status : JVal TaskStatus
  priority : JVal TaskPriority
  assignee : JVal String
  due_date : JVal Nat
deriving DecidableEq, Repr

/-- pydantic validation of one `Optional[str]` update field with length
bounds: unset and null pass through, a value must satisfy the bounds. -/
def parseUpdStr (lo hi : Nat) : JVal String → Option (JVal String)
  | .absent => some .absent
  | .null => some .null
  | .val s => if lo ≤ pyLen s ∧ pyLen s ≤ hi then some (.val s) else none

/-- pydantic validation of one `Optional[Enum]` update field: unset and null
pass through, a value must be an enumeration member. -/
def parseUpdEnum (p : String → Option α) : JVal String → Option (JVal α)
  | .absent => some .absent
  | .null => some .null
  | .val s =>
    match p s with
    | some v => some (.val v)
    | none => none

/-- pydantic validation of `TaskUpdate` (app.py lines 50-57): title
`min_length=1, max_length=200`, description `max_length=1000`, assignee
`max_length=100`, status/priority enum members. -/
def parseTaskUpdate (raw : TaskUpdateInput) : Option TaskUpdate :=
  match parseUpdStr 1 200 raw.title, parseUpdStr 0 1000 raw.description,
      parseUpdEnum parseStatus raw.status, parseUpdEnum parsePriority raw.priority,
      parseUpdStr 0 100 raw.assignee with
  | some t, some d, some st, some pr, some a =>
    some ⟨t, d, st, pr, a, raw.due_date⟩
  | _, _, _, _, _ => none

/-- The error outcomes an endpoint can produce. -/
inductive ApiError where
  | notFound : ApiError
  | validationError : ApiError
  | internalError : ApiError
deriving DecidableEq, Repr

/-- HTTP status code of each error outcome. -/
def ApiError.statusCode : ApiError → Nat
  | .notFound => 404
  | .validationError => 422
  | .internalError => 500

/-- `db.query(TaskModel).filter(TaskModel.id == task_id).first()`. -/
def findTask (s : Store) (id : String) : Option Task :=
  s.find? (fun t => t.id = id)

/-- GET /tasks/{task_id} (app.py lines 163-169). -/
def getTask (s : Store) (id : String) : Except ApiError Task :=
  match findTask s id with
  | some t => .ok t
  | none => .error .notFound

/-- GET /tasks (app.py lines 138-160): chained equality filters. Each
filter is guarded by Python truthiness (`if status:` etc.); an enum member
is always truthy, while the empty string is falsy, so an
`assignee=""` query applies no assignee constraint. -/
def getTasks (s : Store) (status : Option TaskStatus) (priority : Option TaskPriority)
    (assignee : Option String) : List Task :=
  let q := s
  let q := match status with
    | some v => q.filter (fun t => decide (t.status = v))
    | none => q
  let q := match priority with
    | some v => q.filter (fun t => decide (t.priority = v))
    | none => q
  let q := match assignee with
    | some v => if v = "" then q else q.filter (fun t => decide (t.assignee = some v))
    | none => q
  q

/-- POST /tasks handler body (app.py lines 172-198), after pydantic
validation: re-checks `not title or not title.strip()`, then inserts a row
with `id = uuid4` (the `newId` oracle) and `created_at = updated_at = now`. -/
def createTask (s : Store) (tc : TaskCreate) (newId : String) (now : Nat) :
    Except ApiError (Store × Task) :=
  if tc.title = "" ∨ pyStrip tc.title = "" then .error .validationError
  else
    let task : Task :=
      ⟨newId, tc.title, tc.description, tc.status, tc.priority, tc.assignee,
        tc.due_date, now, now⟩
    .ok (s ++ [task], task)

/-- POST /tasks as the client sees it: pydantic body validation (422 on
failure) then the handler body. -/
def createEndpoint (s : Store) (raw : TaskCreateInput) (newId : String) (now : Nat) :
    Except ApiError (Store × Task) :=
  match parseTaskCreate raw with
  | none => .error .validationError
  | some tc => createTask s tc newId now

/-- PUT /tasks/{task_id} handler body (app.py lines 201-226), after
pydantic validation: 404 when the id is absent; then the handler's own
`fields_to_update.get("title") == ""` check (dead after pydantic's
`min_length=1`); explicit nulls for the non-nullable columns title, status
and priority make `db.commit()` raise, modelled as `internalError` with the
transaction rolled back; otherwise the set fields are applied and
`updated_at` is set to `now` unconditionally. -/
def updateTask (s : Store) (id : String) (u : TaskUpdate) (now : Nat) :
    Except ApiError (Store × Task) :=
  match findTask s id with
  | none => .error .notFound
  | some t =>
    if u.title = .val "" then .error .validationError
    else if u.title = .null ∨ u.status = .null ∨ u.priority = .null then
      .error .internalError
    else
      let t' : Task :=
        { t with
          title := match u.title with | .val v => v | _ => t.title
          description := match u.description with
            | .val v => some v | .null => none | .absent => t.description
          status := match u.status with | .val v => v | _ => t.status
          priority := match u.priority with | .val v => v | _ => t.priority
          assignee := match u.assignee with
            | .val v => some v | .null => none | .absent => t.assignee
          due_date := match u.due_date with
            | .val v => some v | .null => none | .absent => t.due_date
          updated_at := now }
      .ok (s.map (fun r => if r.id = id then t' else r), t')

/-- PUT /tasks/{task_id} as the client sees it: pydantic body validation
(422 on failure, before the handler ever looks at the store) then the
handler body. -/
def updateEndpoint (s : Store) (id : String) (raw : TaskUpdateInput) (now : Nat) :
    Except ApiError (Store × Task) :=
  match parseTaskUpdate raw with
  | none => .error .validationError
  | some u => updateTask s id u now

/-- DELETE /tasks/{task_id} (app.py lines 229-242): 404 when the id is
absent, otherwise the row is removed and 204 (no body) is returned, which
the result type reflects by carrying only the new store. -/
def deleteTask (s : Store) (id : String) : Except ApiError Store :=
  match findTask s id with
  | none => .error .notFound
  | some _ => .ok (s.filter (fun t => t.id ≠ id))

/-- The outcome of GET /health. -/
inductive HealthResult where
  | healthy : Nat → HealthResult
  | unhealthy : String → HealthResult
deriving DecidableEq, Repr

/-- GET /health (app.py lines 124-135): the `db` argument is the store
connection, either reachable (`ok`) or failing with some exception message
(`error`); the `try/except` makes the function total — every store failure
is caught and reported as an unhealthy status. -/
def healthCheck (db : Except String Store) : HealthResult :=
  match db with
  | .ok s => .healthy s.length
  | .error e => .unhealthy e

deriving instance DecidableEq for Except

/-! ### Basic lemmas about the embedding -/

theorem findTask_some {s : Store} {id : String} {t : Task}
    (h : findTask s id = some t) : t ∈ s ∧ t.id = id := by
  refine ⟨List.mem_of_find?_eq_some h, ?_⟩
  have := List.find?_some h
  exact of_decide_eq_true this

theorem findTask_filter_ne {s : Store} {id : String} :
    findTask (s.filter (fun t => t.id ≠ id)) id = none := by
  rw [findTask, List.find?_eq_none]
  intro t ht
  have := (List.mem_filter.mp ht).2
  simp only [decide_eq_true_eq] at this ⊢
  exact this

theorem pyLen_pos_ne_empty {t : String} (h : 1 ≤ pyLen t) : t ≠ "" := by
  intro he
  subst he
  simp [pyLen] at h

theorem parseCreateTitle_some {j : JVal String} {t : String}
    (h : parseCreateTitle j = some t) :
    j = .val t ∧ 1 ≤ pyLen t ∧ pyLen t ≤ 200 := by
  cases j with
  | absent => simp [parseCreateTitle] at h
  | null => simp [parseCreateTitle] at h
  | val v =>
    simp only [parseCreateTitle] at h
    split at h
    · next hb =>
      injection h with h
      subst h
      exact ⟨rfl, hb.1, hb.2⟩
    · simp at h

theorem parseCreateEnum_absent {p : String → Option α} {dflt v : α}
    (h : parseCreateEnum p dflt .absent = some v) : v = dflt := by
  injection h with h
  exact h.symm

theorem parseTaskCreate_some {raw : TaskCreateInput} {tc : TaskCreate}
    (h : parseTaskCreate raw = some tc) :
    parseCreateTitle raw.title = some tc.title ∧
    parseCreateEnum parseStatus .todo raw.status = some tc.status ∧
    parseCreateEnum parsePriority .medium raw.priority = some tc.priority := by
  unfold parseTaskCreate at h
  split at h
  · rename_i t d st pr a ht hd hst hpr ha
    injection h with h
    subst h
    exact ⟨ht, hst, hpr⟩
  · simp at h

theorem parseUpdStr_some {lo hi : Nat} {j r : JVal String}
    (h : parseUpdStr lo hi j = some r) :
    r = j ∧ ∀ v, j = .val v → lo ≤ pyLen v ∧ pyLen v ≤ hi := by
  cases j with
  | absent =>
    injection h with h
    exact ⟨h.symm, by intro v hv; cases hv⟩
  | null =>
    injection h with h
    exact ⟨h.symm, by intro v hv; cases hv⟩
  | val s =>
    simp only [parseUpdStr] at h
    split at h
    · next hb =>
      injection h with h
      refine ⟨h.symm, ?_⟩
      intro v hv
      injection hv with hv
      subst hv
      exact hb
    · simp at h

theorem parseUpdEnum_some {p : String → Option α} {j : JVal String} {r : JVal α}
    (h : parseUpdEnum p j = some r) :
    (j = .absent → r = .absent) ∧ (j = .null → r = .null) := by
  cases j with
  | absent =>
    injection h with h
    exact ⟨fun _ => h.symm, by intro hv; cases hv⟩
  | null =>
    injection h with h
    exact ⟨(by intro hv; cases hv), fun _ => h.symm⟩
  | val s =>
    exact ⟨(by intro hv; cases hv), by intro hv; cases hv⟩

theorem parseTaskUpdate_some {raw : TaskUpdateInput} {u : TaskUpdate}
    (h : parseTaskUpdate raw = some u) :
    parseUpdStr 1 200 raw.title = some u.title ∧
    parseUpdStr 0 1000 raw.description = some u.description ∧
    parseUpdEnum parseStatus raw.status = some u.status ∧
    parseUpdEnum parsePriority raw.priority = some u.priority ∧
    parseUpdStr 0 100 raw.assignee = some u.assignee ∧
    u.due_date = raw.due_date := by
  unfold parseTaskUpdate at h
  split at h
  · rename_i t d st pr a ht hd hst hpr ha
    injection h with h
    subst h
    exact ⟨ht, hd, hst, hpr, ha, rfl⟩
  · simp at h

theorem createTask_ok {s : Store} {tc : TaskCreate} {newId : String} {now : Nat}
    {s' : Store} {t' : Task} (h : createTask s tc newId now = .ok (s', t')) :
    pyStrip tc.title ≠ "" ∧
    t' = ⟨newId, tc.title, tc.description, tc.status, tc.priority, tc.assignee,
      tc.due_date, now, now⟩ ∧
    s' = s ++ [t'] := by
  unfold createTask at h
  split at h
  · simp at h
  · next hc =>
    push_neg at hc
    simp only [Except.ok.injEq, Prod.mk.injEq] at h
    obtain ⟨hs, ht⟩ := h
    exact ⟨hc.2, ht.symm, by rw [← hs, ht]⟩

theorem createTask_success {s : Store} {tc : TaskCreate} {newId : String} {now : Nat}
    (h : pyStrip tc.title ≠ "") :
    createTask s tc newId now =
      .ok (s ++ [⟨newId, tc.title, tc.description, tc.status, tc.priority,
        tc.assignee, tc.due_date, now, now⟩],
        ⟨newId, tc.title, tc.description, tc.status, tc.priority, tc.assignee,
          tc.due_date, now, now⟩) := by
  unfold createTask
  rw [if_neg]
  rintro (he | he)
  · exact h (by rw [he]; rfl)
  · exact h he

theorem updateTask_ok {s : Store} {id : String} {u : TaskUpdate} {now : Nat}
    {s' : Store} {t' : Task} (h : updateTask s id u now = .ok (s', t')) :
    ∃ t, findTask s id = some t ∧
      u.title ≠ .val "" ∧ u.title ≠ .null ∧ u.status ≠ .null ∧ u.priority ≠ .null ∧
      t'.id = t.id ∧ t'.created_at = t.created_at ∧ t'.updated_at = now ∧
      t'.title = (match u.title with | .val v => v | _ => t.title) ∧
      t'.description = (match u.description with
        | .val v => some v | .null => none | .absent => t.description) ∧
      t'.status = (match u.status with | .val v => v | _ => t.status) ∧
      t'.priority = (match u.priority with | .val v => v | _ => t.priority) ∧
      t'.assignee = (match u.assignee with
        | .val v => some v | .null => none | .absent => t.assignee) ∧
      t'.due_date = (match u.due_date with
        | .val v => some v | .null => none | .absent => t.due_date) ∧
      s' = s.map (fun r => if r.id = id then t' else r) := by
  unfold updateTask at h
  split at h
  · simp at h
  · next t hft =>
    split at h
    · simp at h
    · next hemp =>
      split at h
      · simp at h
      · next hnulls =>
        push_neg at hnulls
        simp only [Except.ok.injEq, Prod.mk.injEq] at h
        obtain ⟨hs, ht⟩ := h
        subst ht
        exact ⟨t, hft, hemp, hnulls.1, hnulls.2.1, hnulls.2.2, rfl, rfl, rfl,
          rfl, rfl, rfl, rfl, rfl, rfl, hs.symm⟩

/-- Spec section 4.1, List: a record matches when it satisfies every
supplied equality constraint, the constraints being conjoined with AND.
This is the spec-side description that `getTasks` is compared against. -/
def matchesFilters (t : Task) (status : Option TaskStatus)
    (priority : Option TaskPriority) (assignee : Option String) : Bool :=
  (match status with | some v => decide (t.status = v) | none => true) &&
  (match priority with | some v => decide (t.priority = v) | none => true) &&
  (match assignee with | some v => decide (t.assignee = some v) | none => true)

theorem getTasks_eq_filter (s : Store) (st : Option TaskStatus)
    (pr : Option TaskPriority) (a : Option String) (ha : a ≠ some "") :
    getTasks s st pr a = s.filter (fun t => matchesFilters t st pr a) := by
  cases a with
  | none =>
    cases st <;> cases pr <;>
      simp [getTasks, matchesFilters, List.filter_filter, Bool.and_comm,
        Bool.and_left_comm, Bool.and_assoc]
  | some v =>
    have hv : ¬v = "" := fun he => ha (by rw [he])
    cases st <;> cases pr <;>
      simp [getTasks, matchesFilters, hv, List.filter_filter, Bool.and_comm,
        Bool.and_left_comm, Bool.and_assoc]

/-- The store states reachable through the service: the empty store,
extended by successful create, update and delete calls. `clock` is the time
of the latest mutation; each mutation happens at a `now` no earlier than the
clock (`datetime.utcnow()` as a monotone oracle) and uuid4 generation is an
oracle producing ids fresh for the store. -/
inductive Reachable : Store → Nat → Prop where
  | init (t0 : Nat) : Reachable [] t0
  | create {s : Store} {clock now : Nat} {raw : TaskCreateInput} {newId : String}
      {s' : Store} {t' : Task} :
      Reachable s clock → clock ≤ now → (∀ u ∈ s, u.id ≠ newId) →
      createEndpoint s raw newId now = .ok (s', t') → Reachable s' now
  | update {s : Store} {clock now : Nat} {id : String} {raw : TaskUpdateInput}
      {s' : Store} {t' : Task} :
      Reachable s clock → clock ≤ now →
      updateEndpoint s id raw now = .ok (s', t') → Reachable s' now
  | remove {s : Store} {clock : Nat} {id : String} {s' : Store} :
      Reachable s clock → deleteTask s id = .ok s' → Reachable s' clock

/-- The store invariant maintained by the service: ids are unique, titles
are never the empty string, and timestamps are ordered and bounded by the
clock. -/
def StoreInv (s : Store) (clock : Nat) : Prop :=
  (s.map Task.id).Nodup ∧
  ∀ t ∈ s, t.title ≠ "" ∧ t.created_at ≤ t.updated_at ∧ t.updated_at ≤ clock

theorem reachable_storeInv {s : Store} {clock : Nat} (h : Reachable s clock) :
    StoreInv s clock := by
  induction h with
  | init t0 =>
    exact ⟨List.nodup_nil, by intro t ht; cases ht⟩
  | create hr hc hfresh hok ih =>
    rename_i s clock now raw newId s' t'
    unfold createEndpoint at hok
    split at hok
    · simp at hok
    · next tc hparse =>
      obtain ⟨hstrip, ht', hs'⟩ := createTask_ok hok
      obtain ⟨htitle, -, -⟩ := parseTaskCreate_some hparse
      obtain ⟨-, hlo, -⟩ := parseCreateTitle_some htitle
      obtain ⟨hnd, hall⟩ := ih
      subst hs'
      constructor
      · rw [List.map_append]
        rw [List.nodup_append]
        refine ⟨hnd, List.nodup_singleton _, ?_⟩
        intro x hx hx'
        simp only [List.map_cons, List.map_nil, List.mem_singleton] at hx'
        obtain ⟨u, hu, hux⟩ := List.mem_map.mp hx
        subst hx'
        exact hfresh u hu (hux.trans (show Task.id t' = newId by rw [ht']))
      · intro t ht
        rcases List.mem_append.mp ht with hmem | hmem
        · obtain ⟨h1, h2, h3⟩ := hall t hmem
          exact ⟨h1, h2, le_trans h3 hc⟩
        · rw [List.mem_singleton] at hmem
          subst hmem
          rw [ht']
          exact ⟨pyLen_pos_ne_empty hlo, le_refl _, le_refl _⟩
  | update hr hc hok ih =>
    rename_i s clock now id raw s' t'
    unfold updateEndpoint at hok
    split at hok
    · simp at hok
    · next u hparse =>
      obtain ⟨t0, hft, hne, hnn, -, -, hid, hcr, hup, htt, -, -, -, -, -, hs'⟩ :=
        updateTask_ok hok
      obtain ⟨ht0mem, ht0id⟩ := findTask_some hft
      obtain ⟨hptitle, -, -, -, -, -⟩ := parseTaskUpdate_some hparse
      obtain ⟨hteq, htv⟩ := parseUpdStr_some hptitle
      obtain ⟨hnd, hall⟩ := ih
      obtain ⟨h01, h02, h03⟩ := hall t0 ht0mem
      subst hs'
      have ht'title : t'.title ≠ "" := by
        rw [htt]
        cases hu : u.title with
        | absent => exact h01
        | null => exact absurd hu hnn
        | val v =>
          have hraw : raw.title = .val v := by rw [← hteq, hu]
          exact pyLen_pos_ne_empty (htv v hraw).1
      have hmapid : ((s.map (fun r => if r.id = id then t' else r)).map Task.id)
          = s.map Task.id := by
        rw [List.map_map]
        refine List.map_congr_left ?_
        intro r hrmem
        simp only [Function.comp_apply]
        by_cases hrid : r.id = id
        · rw [if_pos hrid, hid, ht0id, hrid]
        · rw [if_neg hrid]
      constructor
      · rw [hmapid]; exact hnd
      · intro t ht
        obtain ⟨r, hrmem, hrt⟩ := List.mem_map.mp ht
        obtain ⟨hr1, hr2, hr3⟩ := hall r hrmem
        by_cases hrid : r.id = id
        · rw [if_pos hrid] at hrt
          subst hrt
          refine ⟨ht'title, ?_, ?_⟩
          · rw [hcr, hup]
            exact le_trans h02 (le_trans h03 hc)
          · rw [hup]
        · rw [if_neg hrid] at hrt
          subst hrt
          exact ⟨hr1, hr2, le_trans hr3 hc⟩
  | remove hr hok ih =>
    rename_i s clock id s'
    unfold deleteTask at hok
    split at hok
    · simp at hok
    · simp only [Except.ok.injEq] at hok
      subst hok
      obtain ⟨hnd, hall⟩ := ih
      constructor
      · exact List.Nodup.sublist (List.Sublist.map _ (List.filter_sublist _)) hnd
      · intro t ht
        exact hall t (List.mem_of_mem_filter ht)

theorem parseTaskUpdate_title_none {raw : TaskUpdateInput}
    (h : parseUpdStr 1 200 raw.title = none) : parseTaskUpdate raw = none := by
  unfold parseTaskUpdate
  rw [h]

theorem parseTaskCreate_title_none {raw : TaskCreateInput}
    (h : parseCreateTitle raw.title = none) : parseTaskCreate raw = none := by
  unfold parseTaskCreate
  rw [h]

/-! ### The claims -/

/-- C1 counterexample: on a store holding a task with id `"i"`, an Update
explicitly supplying the whitespace-only title `" "` does not fail with
ValidationError: it succeeds and persists the whitespace-only title
(pydantic's `min_length=1` accepts `" "`, and the handler only compares the
supplied title against the empty string, without trimming). -/
theorem C1_counterexample :
    updateEndpoint [⟨"i", "a", none, .todo, .medium, none, none, 0, 0⟩] "i"
      ⟨.val " ", .absent, .absent, .absent, .absent, .absent⟩ 1 =
    .ok ([⟨"i", " ", none, .todo, .medium, none, none, 0, 1⟩],
      ⟨"i", " ", none, .todo, .medium, none, none, 0, 1⟩) := by decide

/-- C1 amended: if an Update explicitly supplies `title` as the empty
string, the request fails with ValidationError (422) — and, the outcome
being an error, no record is modified — while a whitespace-only but
nonempty supplied title is accepted: the update succeeds and persists it
verbatim. -/
theorem C1_update_title_empty_only :
    (∀ (s : Store) (id : String) (raw : TaskUpdateInput) (now : Nat),
      raw.title = .val "" →
      updateEndpoint s id raw now = .error .validationError) ∧
    (∀ (s : Store) (id : String) (t : Task) (w : String) (now : Nat),
      findTask s id = some t → 1 ≤ pyLen w → pyLen w ≤ 200 →
      updateEndpoint s id ⟨.val w, .absent, .absent, .absent, .absent, .absent⟩ now =
        .ok (s.map (fun r => if r.id = id then
              { t with title := w, updated_at := now } else r),
          { t with title := w, updated_at := now })) := by
  constructor
  · intro s id raw now h
    have hp : parseTaskUpdate raw = none := by
      apply parseTaskUpdate_title_none
      rw [h]
      decide
    unfold updateEndpoint
    rw [hp]
  · intro s id t w now hft h1 h200
    have hw : ¬(JVal.val w = JVal.val "") := by
      intro he
      injection he with he
      exact pyLen_pos_ne_empty h1 he
    have hp : parseTaskUpdate ⟨.val w, .absent, .absent, .absent, .absent, .absent⟩ =
        some ⟨.val w, .absent, .absent, .absent, .absent, .absent⟩ := by
      simp [parseTaskUpdate, parseUpdStr, parseUpdEnum, h1, h200]
    simp only [updateEndpoint, hp, updateTask, hft]
    rw [if_neg hw, if_neg (by simp)]

/-- C1 witness: the empty-title rejection and the whitespace-tolerant
acceptance, each at a concrete input. -/
theorem C1_update_title_empty_only_witness :
    updateEndpoint [] "x" ⟨.val "", .absent, .absent, .absent, .absent, .absent⟩ 0 =
      .error .validationError ∧
    updateEndpoint [⟨"i", "a", none, .todo, .medium, none, none, 0, 0⟩] "i"
      ⟨.val "b", .absent, .absent, .absent, .absent, .absent⟩ 3 =
      .ok ([⟨"i", "b", none, .todo, .medium, none, none, 0, 3⟩],
        ⟨"i", "b", none, .todo, .medium, none, none, 0, 3⟩) :=
  ⟨C1_update_title_empty_only.1 [] "x" _ 0 rfl,
    (C1_update_title_empty_only.2 [⟨"i", "a", none, .todo, .medium, none, none, 0, 0⟩]
      "i" ⟨"i", "a", none, .todo, .medium, none, none, 0, 0⟩ "b" 3
      (by decide) (by decide) (by decide)).trans (by decide)⟩

/-- C2 counterexample: an Update on a nonexistent id whose body carries a
non-member priority value fails with ValidationError (422), not NotFound:
pydantic rejects the body before the handler's existence check can run. -/
theorem C2_counterexample :
    updateEndpoint [] "x" ⟨.absent, .absent, .absent, .val "urgent", .absent, .absent⟩ 0 =
      .error .validationError ∧
    ApiError.validationError ≠ ApiError.notFound := by decide

/-- C2 amended: an Update whose id does not exist fails with NotFound (404)
provided the supplied fields pass the request-body validation; when a
supplied field is invalid (e.g. a non-member status/priority), the request
fails with ValidationError (422) at the parsing boundary, before the
existence check is reached. -/
theorem C2_update_notFound :
    (∀ (s : Store) (id : String) (raw : TaskUpdateInput) (now : Nat)
      (u : TaskUpdate), parseTaskUpdate raw = some u → findTask s id = none →
      updateEndpoint s id raw now = .error .notFound) ∧
    (∀ (s : Store) (id : String) (raw : TaskUpdateInput) (now : Nat),
      parseTaskUpdate raw = none →
      updateEndpoint s id raw now = .error .validationError) ∧
    ApiError.notFound.statusCode = 404 ∧ ApiError.validationError.statusCode = 422 := by
  refine ⟨?_, ?_, rfl, rfl⟩
  · intro s id raw now u hp hnone
    unfold updateEndpoint
    rw [hp]
    unfold updateTask
    rw [hnone]
  · intro s id raw now hp
    unfold updateEndpoint
    rw [hp]

/-- C2 witness: both branches at concrete inputs — a parseable body on a
missing id gives 404, an invalid-priority body gives 422. -/
theorem C2_update_notFound_witness :
    updateEndpoint [] "x" ⟨.absent, .absent, .val "done", .absent, .absent, .absent⟩ 0 =
      .error .notFound ∧
    updateEndpoint [⟨"i", "a", none, .todo, .medium, none, none, 0, 0⟩] "i"
      ⟨.absent, .absent, .absent, .val "urgent2", .absent, .absent⟩ 0 =
      .error .validationError :=
  ⟨C2_update_notFound.1 [] "x" _ 0
      ⟨.absent, .absent, .val .done, .absent, .absent, .absent⟩ (by decide) (by decide),
    C2_update_notFound.2.1 [⟨"i", "a", none, .todo, .medium, none, none, 0, 0⟩] "i" _ 0
      (by decide)⟩

/-- C3: Create fails with ValidationError (422) when the title is absent
(or null), or empty/whitespace-only after trimming; a create whose title is
exactly 200 characters and not whitespace-only succeeds; a 201-character
title fails. -/
theorem C3_create_title_validation :
    (∀ (s : Store) (raw : TaskCreateInput) (newId : String) (now : Nat),
      raw.title = .absent ∨ raw.title = .null →
      createEndpoint s raw newId now = .error .validationError) ∧
    (∀ (s : Store) (raw : TaskCreateInput) (newId : String) (now : Nat)
      (w : String), raw.title = .val w → pyStrip w = "" →
      createEndpoint s raw newId now = .error .validationError) ∧
    (∀ (s : Store) (newId : String) (now : Nat) (w : String),
      pyLen w = 200 → pyStrip w ≠ "" →
      createEndpoint s ⟨.val w, .absent, .absent, .absent, .absent, .absent⟩
          newId now =
        .ok (s ++ [⟨newId, w, none, .todo, .medium, none, none, now, now⟩],
          ⟨newId, w, none, .todo, .medium, none, none, now, now⟩)) ∧
    (∀ (s : Store) (raw : TaskCreateInput) (newId : String) (now : Nat)
      (w : String), raw.title = .val w → pyLen w = 201 →
      createEndpoint s raw newId now = .error .validationError) := by
  refine ⟨?_, ?_, ?_, ?_⟩
  · intro s raw newId now h
    have hp : parseTaskCreate raw = none := by
      apply parseTaskCreate_title_none
      rcases h with h | h <;> rw [h] <;> rfl
    unfold createEndpoint
    rw [hp]
  · intro s raw newId now w hraw hstrip
    unfold createEndpoint
    cases hp : parseTaskCreate raw with
    | none => rfl
    | some tc =>
      obtain ⟨htitle, -, -⟩ := parseTaskCreate_some hp
      obtain ⟨hjv, -, -⟩ := parseCreateTitle_some htitle
      rw [hraw] at hjv
      injection hjv with hjv
      show createTask s tc newId now = .error .validationError
      unfold createTask
      rw [if_pos (Or.inr (show pyStrip tc.title = "" by rw [← hjv]; exact hstrip))]
  · intro s newId now w hlen hstrip
    have h1 : 1 ≤ pyLen w := by rw [hlen]; decide
    have h200 : pyLen w ≤ 200 := by rw [hlen]
    have hp : parseTaskCreate ⟨.val w, .absent, .absent, .absent, .absent, .absent⟩ =
        some ⟨w, none, .todo, .medium, none, none⟩ := by
      simp [parseTaskCreate, parseCreateTitle, parseOptStr, parseCreateEnum,
        jvalOpt, h1, h200]
    simp only [createEndpoint, hp]
    exact createTask_success hstrip
  · intro s raw newId now w hraw hlen
    have hp : parseTaskCreate raw = none := by
      apply parseTaskCreate_title_none
      rw [hraw]
      simp [parseCreateTitle, hlen]
    unfold createEndpoint
    rw [hp]

set_option maxRecDepth 10000 in
/-- C3 witness: the 200-character boundary success, a whitespace-only
rejection, an absent-title rejection and the 201-character rejection, each
at a concrete input. -/
theorem C3_create_title_validation_witness :
    createEndpoint [] ⟨.val (String.mk (List.replicate 200 'a')), .absent, .absent,
        .absent, .absent, .absent⟩ "id0" 5 =
      .ok ([⟨"id0", String.mk (List.replicate 200 'a'), none, .todo, .medium,
          none, none, 5, 5⟩],
        ⟨"id0", String.mk (List.replicate 200 'a'), none, .todo, .medium,
          none, none, 5, 5⟩) ∧
    createEndpoint [] ⟨.val " ", .absent, .absent, .absent, .absent, .absent⟩
      "id0" 5 = .error .validationError ∧
    createEndpoint [] ⟨.absent, .absent, .absent, .absent, .absent, .absent⟩
      "id0" 5 = .error .validationError ∧
    createEndpoint [] ⟨.val (String.mk (List.replicate 201 'b')), .absent, .absent,
        .absent, .absent, .absent⟩ "id0" 5 = .error .validationError :=
  ⟨C3_create_title_validation.2.2.1 [] "id0" 5
      (String.mk (List.replicate 200 'a')) (by decide) (by decide),
    C3_create_title_validation.2.1 []
      ⟨.val " ", .absent, .absent, .absent, .absent, .absent⟩ "id0" 5 " "
      rfl (by decide),
    C3_create_title_validation.1 []
      ⟨.absent, .absent, .absent, .absent, .absent, .absent⟩ "id0" 5 (Or.inl rfl),
    C3_create_title_validation.2.2.2 []
      ⟨.val (String.mk (List.replicate 201 'b')), .absent, .absent, .absent,
        .absent, .absent⟩ "id0" 5 (String.mk (List.replicate 201 'b'))
      rfl (by decide)⟩

/-- C4: every valid Create returns a record whose id is the freshly
generated one — unique among existing ids under the uuid-freshness oracle
assumption — with `created_at = updated_at`, and with the declared defaults
`status = todo` and `priority = medium` whenever those fields were omitted;
the new record is appended to the store. -/
theorem C4_create_result (s : Store) (raw : TaskCreateInput) (newId : String)
    (now : Nat) (s' : Store) (t' : Task)
    (hok : createEndpoint s raw newId now = .ok (s', t'))
    (hfresh : ∀ u ∈ s, u.id ≠ newId) :
    t'.id = newId ∧ (∀ u ∈ s, u.id ≠ t'.id) ∧
    t'.created_at = t'.updated_at ∧
    (raw.status = .absent → t'.status = .todo) ∧
    (raw.priority = .absent → t'.priority = .medium) ∧
    s' = s ++ [t'] := by
  unfold createEndpoint at hok
  split at hok
  · simp at hok
  · next tc hparse =>
    obtain ⟨hstrip, ht', hs'⟩ := createTask_ok hok
    obtain ⟨-, hst, hpr⟩ := parseTaskCreate_some hparse
    subst ht'
    refine ⟨rfl, ?_, rfl, ?_, ?_, hs'⟩
    · intro u hu
      exact hfresh u hu
    · intro habs
      rw [habs] at hst
      exact parseCreateEnum_absent hst
    · intro habs
      rw [habs] at hpr
      exact parseCreateEnum_absent hpr

/-- C4 witness: a concrete valid create on a one-task store with a fresh
id. -/
theorem C4_create_result_witness :
    let t1 : Task := ⟨"id1", "x", none, .done, .high, none, none, 0, 0⟩
    let t2 : Task := ⟨"id2", "Buy", none, .todo, .medium, none, none, 7, 7⟩
    t2.id = "id2" ∧ (∀ u ∈ [t1], u.id ≠ t2.id) ∧
    t2.created_at = t2.updated_at ∧
    (TaskCreateInput.status ⟨.val "Buy", .absent, .absent, .absent, .absent,
      .absent⟩ = .absent → t2.status = .todo) ∧
    (TaskCreateInput.priority ⟨.val "Buy", .absent, .absent, .absent, .absent,
      .absent⟩ = .absent → t2.priority = .medium) ∧
    [t1, t2] = [t1] ++ [t2] :=
  C4_create_result [⟨"id1", "x", none, .done, .high, none, none, 0, 0⟩]
    ⟨.val "Buy", .absent, .absent, .absent, .absent, .absent⟩ "id2" 7
    [⟨"id1", "x", none, .done, .high, none, none, 0, 0⟩,
      ⟨"id2", "Buy", none, .todo, .medium, none, none, 7, 7⟩]
    ⟨"id2", "Buy", none, .todo, .medium, none, none, 7, 7⟩
    (by decide) (by decide)

/-- C5: a successful Update leaves every field that is absent from the
partial input unchanged (id and created_at are always unchanged), and sets
`updated_at` to the current time regardless of which fields were supplied —
an update supplying no fields included — so under a strictly advancing
clock (`t.updated_at < now`) `updated_at` strictly increases. -/
theorem C5_update_frame (s : Store) (id : String) (raw : TaskUpdateInput)
    (now : Nat) (s' : Store) (t' t : Task)
    (hok : updateEndpoint s id raw now = .ok (s', t'))
    (hft : findTask s id = some t) (hclk : t.updated_at < now) :
    (raw.title = .absent → t'.title = t.title) ∧
    (raw.description = .absent → t'.description = t.description) ∧
    (raw.status = .absent → t'.status = t.status) ∧
    (raw.priority = .absent → t'.priority = t.priority) ∧
    (raw.assignee = .absent → t'.assignee = t.assignee) ∧
    (raw.due_date = .absent → t'.due_date = t.due_date) ∧
    t'.id = t.id ∧ t'.created_at = t.created_at ∧
    t'.updated_at = now ∧ t.updated_at < t'.updated_at := by
  unfold updateEndpoint at hok
  split at hok
  · simp at hok
  · next u hparse =>
    obtain ⟨t0, hft0, -, -, -, -, hid, hcr, hup, htt, htd, hts, htp, hta, htdd, -⟩ :=
      updateTask_ok hok
    rw [hft] at hft0
    injection hft0 with hft0
    subst hft0
    obtain ⟨hpt, hpd, hps, hpp, hpa, hpdd⟩ := parseTaskUpdate_some hparse
    obtain ⟨hteq, -⟩ := parseUpdStr_some hpt
    obtain ⟨hdeq, -⟩ := parseUpdStr_some hpd
    obtain ⟨hsabs, -⟩ := parseUpdEnum_some hps
    obtain ⟨hpabs, -⟩ := parseUpdEnum_some hpp
    obtain ⟨haeq, -⟩ := parseUpdStr_some hpa
    refine ⟨?_, ?_, ?_, ?_, ?_, ?_, hid, hcr, hup, by rw [hup]; exact hclk⟩
    · intro habs
      rw [htt, hteq, habs]
    · intro habs
      rw [htd, hdeq, habs]
    · intro habs
      rw [hts, hsabs habs]
    · intro habs
      rw [htp, hpabs habs]
    · intro habs
      rw [hta, haeq, habs]
    · intro habs
      rw [htdd, hpdd, habs]

/-- C5 witness: an update supplying only `status` on a concrete store keeps
every other field and advances `updated_at` from 0 to 4. -/
theorem C5_update_frame_witness :
    let raw : TaskUpdateInput := ⟨.absent, .absent, .val "done", .absent, .absent,
      .absent⟩
    let t : Task := ⟨"i", "T", some "d", .todo, .high, some "z", some 9, 0, 0⟩
    let t' : Task := ⟨"i", "T", some "d", .done, .high, some "z", some 9, 0, 4⟩
    (raw.title = .absent → t'.title = t.title) ∧
    (raw.description = .absent → t'.description = t.description) ∧
    (raw.status = .absent → t'.status = t.status) ∧
    (raw.priority = .absent → t'.priority = t.priority) ∧
    (raw.assignee = .absent → t'.assignee = t.assignee) ∧
    (raw.due_date = .absent → t'.due_date = t.due_date) ∧
    t'.id = t.id ∧ t'.created_at = t.created_at ∧
    t'.updated_at = 4 ∧ t.updated_at < t'.updated_at :=
  C5_update_frame [⟨"i", "T", some "d", .todo, .high, some "z", some 9, 0, 0⟩]
    "i" ⟨.absent, .absent, .val "done", .absent, .absent, .absent⟩ 4
    [⟨"i", "T", some "d", .done, .high, some "z", some 9, 0, 4⟩]
    ⟨"i", "T", some "d", .done, .high, some "z", some 9, 0, 4⟩
    ⟨"i", "T", some "d", .todo, .high, some "z", some 9, 0, 0⟩
    (by decide) (by decide) (by decide)

/-- C6 counterexample: a store holding a task whose title is the
whitespace-only string `" "` is reachable — create a task titled `"a"`,
then update its title to `" "` — contradicting the claimed invariant that a
persisted title is never whitespace-only. -/
theorem C6_counterexample :
    Reachable [⟨"i", " ", none, .todo, .medium, none, none, 0, 1⟩] 1 ∧
    pyStrip " " = "" := by
  constructor
  · have h1 : Reachable [⟨"i", "a", none, .todo, .medium, none, none, 0, 0⟩] 0 :=
      @Reachable.create [] 0 0
        ⟨.val "a", .absent, .absent, .absent, .absent, .absent⟩ "i"
        [⟨"i", "a", none, .todo, .medium, none, none, 0, 0⟩]
        ⟨"i", "a", none, .todo, .medium, none, none, 0, 0⟩
        (Reachable.init 0) (by decide) (by decide) (by decide)
    exact @Reachable.update [⟨"i", "a", none, .todo, .medium, none, none, 0, 0⟩]
      0 1 "i" ⟨.val " ", .absent, .absent, .absent, .absent, .absent⟩
      [⟨"i", " ", none, .todo, .medium, none, none, 0, 1⟩]
      ⟨"i", " ", none, .todo, .medium, none, none, 0, 1⟩
      h1 (by decide) (by decide)
  · decide

/-- C6 amended: in every reachable store state, ids are unique across all
tasks, every persisted title is a nonempty string (it may however be
whitespace-only: see the counterexample), status and priority are always
members of their enumerations, and `updated_at ≥ created_at`. -/
theorem C6_store_invariants {s : Store} {clock : Nat} (h : Reachable s clock) :
    (s.map Task.id).Nodup ∧
    ∀ t ∈ s, t.title ≠ "" ∧
      (t.status = .todo ∨ t.status = .in_progress ∨ t.status = .done) ∧
      (t.priority = .low ∨ t.priority = .medium ∨ t.priority = .high) ∧
      t.created_at ≤ t.updated_at := by
  obtain ⟨hnd, hall⟩ := reachable_storeInv h
  refine ⟨hnd, ?_⟩
  intro t ht
  obtain ⟨h1, h2, -⟩ := hall t ht
  refine ⟨h1, ?_, ?_, h2⟩
  · cases hs2 : t.status
    · exact Or.inl rfl
    · exact Or.inr (Or.inl rfl)
    · exact Or.inr (Or.inr rfl)
  · cases hp2 : t.priority
    · exact Or.inl rfl
    · exact Or.inr (Or.inl rfl)
    · exact Or.inr (Or.inr rfl)

/-- C6 witness: the invariants at a concrete reachable one-task store. -/
theorem C6_store_invariants_witness :
    ((([⟨"id0", "Buy", none, .todo, .medium, none, none, 5, 5⟩] : Store)).map
      Task.id).Nodup ∧
    ∀ t ∈ ([⟨"id0", "Buy", none, .todo, .medium, none, none, 5, 5⟩] : Store),
      t.title ≠ "" ∧
      (t.status = .todo ∨ t.status = .in_progress ∨ t.status = .done) ∧
      (t.priority = .low ∨ t.priority = .medium ∨ t.priority = .high) ∧
      t.created_at ≤ t.updated_at :=
  C6_store_invariants
    (@Reachable.create [] 0 5
      ⟨.val "Buy", .absent, .absent, .absent, .absent, .absent⟩ "id0"
      [⟨"id0", "Buy", none, .todo, .medium, none, none, 5, 5⟩]
      ⟨"id0", "Buy", none, .todo, .medium, none, none, 5, 5⟩
      (Reachable.init 0) (by decide) (by decide) (by decide))

/-- C7: List returns exactly the records satisfying the conjunction (AND)
of the supplied equality filters — provided the assignee filter, when
supplied, is nonempty (an empty-string assignee disables that filter; see
C10); the empty filter set returns all records, and when no record matches
the result is the empty list, not an error. -/
theorem C7_list_filter_conjunction (s : Store) (st : Option TaskStatus)
    (pr : Option TaskPriority) (a : Option String) (ha : a ≠ some "") :
    getTasks s st pr a = s.filter (fun t => matchesFilters t st pr a) ∧
    getTasks s none none none = s ∧
    ((∀ t ∈ s, matchesFilters t st pr a = false) → getTasks s st pr a = []) := by
  refine ⟨getTasks_eq_filter s st pr a ha, rfl, ?_⟩
  intro hnone
  rw [getTasks_eq_filter s st pr a ha, List.filter_eq_nil_iff]
  intro t ht
  simp [hnone t ht]

/-- C7 witness: a concrete two-task store with a conjunctive filter pair
matching no record. -/
theorem C7_list_filter_conjunction_witness :
    let S : Store := [⟨"1", "A", none, .todo, .low, none, none, 0, 0⟩,
      ⟨"2", "B", none, .done, .high, none, none, 0, 0⟩]
    getTasks S (some .todo) (some .high) none =
      S.filter (fun t => matchesFilters t (some .todo) (some .high) none) ∧
    getTasks S none none none = S ∧
    ((∀ t ∈ S, matchesFilters t (some .todo) (some .high) none = false) →
      getTasks S (some .todo) (some .high) none = []) :=
  C7_list_filter_conjunction
    [⟨"1", "A", none, .todo, .low, none, none, 0, 0⟩,
      ⟨"2", "B", none, .done, .high, none, none, 0, 0⟩]
    (some .todo) (some .high) none (by decide)

/-- C8: deleting an existing id removes the record — the success result
carries no body, only the new store (204) — and a subsequent Get of the
same id fails with NotFound; deleting a nonexistent id fails with NotFound
(404). -/
theorem C8_delete_then_get (s : Store) (id : String) :
    (∀ t, findTask s id = some t →
      deleteTask s id = .ok (s.filter (fun r => r.id ≠ id)) ∧
      getTask (s.filter (fun r => r.id ≠ id)) id = .error .notFound) ∧
    (findTask s id = none → deleteTask s id = .error .notFound) := by
  constructor
  · intro t hft
    constructor
    · unfold deleteTask
      rw [hft]
    · unfold getTask
      rw [findTask_filter_ne]
  · intro hnone
    unfold deleteTask
    rw [hnone]

/-- C8 witness: delete and re-Get at a concrete one-task store, and a
delete of a missing id. -/
theorem C8_delete_then_get_witness :
    deleteTask [⟨"i", "a", none, .todo, .medium, none, none, 0, 0⟩] "i" =
      .ok (([⟨"i", "a", none, .todo, .medium, none, none, 0, 0⟩] : Store).filter
        (fun r => r.id ≠ "i")) ∧
    getTask (([⟨"i", "a", none, .todo, .medium, none, none, 0, 0⟩] : Store).filter
      (fun r => r.id ≠ "i")) "i" = .error .notFound ∧
    deleteTask [] "zzz" = .error .notFound :=
  ⟨((C8_delete_then_get [⟨"i", "a", none, .todo, .medium, none, none, 0, 0⟩]
      "i").1 ⟨"i", "a", none, .todo, .medium, none, none, 0, 0⟩ (by decide)).1,
    ((C8_delete_then_get [⟨"i", "a", none, .todo, .medium, none, none, 0, 0⟩]
      "i").1 ⟨"i", "a", none, .todo, .medium, none, none, 0, 0⟩ (by decide)).2,
    (C8_delete_then_get [] "zzz").2 (by decide)⟩

/-- C9: HealthCheck reports healthy together with the current total record
count when the store is reachable, and unhealthy together with the failure
detail when it is not; `healthCheck` is a total function of the store
outcome — the unreachable path returns a degraded status instead of
raising. -/
theorem C9_health_check :
    (∀ s : Store, healthCheck (.ok s) = .healthy s.length) ∧
    (∀ e : String, healthCheck (.error e) = .unhealthy e) :=
  ⟨fun _ => rfl, fun _ => rfl⟩

/-- C10: a List request whose assignee filter is supplied as the empty
string applies no assignee constraint at all: the result is identical to
the same request without an assignee filter, because Python truthiness
makes `if assignee:` skip the filter for `""`. -/
theorem C10_list_empty_assignee (s : Store) (st : Option TaskStatus)
    (pr : Option TaskPriority) :
    getTasks s st pr (some "") = getTasks s st pr none := by
  unfold getTasks
  rfl

end TaskFlow
